import Mathlib

/-!
Shallow embedding of `src/main.py` (the pyre request-dispatch core):
routing table and dispatch (`Router`), type-directed parameter resolution
(`Injector`), pluggable serialization (`TextSerializer` / `JSONSerializer`),
and the demo application (handlers `a`, `b`, `c`).

Modelling conventions:
* Python `bytes` and `str` are both modelled as Lean `String` (all data in
  the program is ASCII).
* Python dicts are association lists with Python's update semantics
  (`dictSet`: overwrite in place if the key is present, else append) and
  exact-key lookup (`dictGet`).
* Python exceptions are the `PyError` type; a raising call returns
  `Except.error`.  The program defines no exception classes of its own, so
  the constructors are the builtins the interpreter raises (`KeyError`
  from dict subscripting, `TypeError` from `json.dumps` /
  constructor-kwarg mismatch, `ValueError` for `json.JSONDecodeError`).
* A dispatch has exactly one live `Request` object; a Python reference to
  it is the value `Value.vRequestRef`, and the object's mutable state is
  threaded explicitly through resolvers and the handler body
  (`Request → … → Except PyError (Request × …)`).  Mutating
  `request.response.serializer` inside a handler is returning an updated
  `Request`.
* `str()` of a `Request` prints a memory address in Python; the model
  abstracts it to the fixed text `<Request object>` (no claim depends on
  the address).
* Floating-point JSON numbers are outside the model (`jsonLoads` parses
  integers only); no value in the program or the claims is a float.
-/

/-- Python dict lookup `d[k]` as an association-list lookup (exact key
equality, first match — keys are unique by construction of `dictSet`). -/
def dictGet {α β : Type} [DecidableEq α] (l : List (α × β)) (k : α) : Option β :=
  (l.find? (fun p => decide (p.1 = k))).map (fun p => p.2)

/-- Python dict update `d[k] = v`: overwrite in place when `k` is present
(keys are unique, so replacing the first match is replacing the only one),
else append at the end (insertion order preserved). -/
def dictSet {α β : Type} [DecidableEq α] : List (α × β) → α → β → List (α × β)
  | [], k, v => [(k, v)]
  | (a, b) :: t, k, v => if a = k then (k, v) :: t else (a, b) :: dictSet t k v

/-- Python runtime values occurring in the program: `None`, booleans,
integers, strings, lists, dicts (string keys — every dict in the program
has string keys), a reference to the dispatch's `Request` object, and
instances of the `Body` dataclass. -/
inductive Value : Type where
  | vNone : Value
  | vBool : Bool → Value
  | vInt : Int → Value
  | vStr : String → Value
  | vList : List Value → Value
  | vDict : List (String × Value) → Value
  | vRequestRef : Value
  | vBody : Value → Value → Value → Value

/-- Python exceptions raised by the program.  The payload is the text the
interpreter attaches (`KeyError` carries the `repr` of the missing key). -/
inductive PyError : Type where
  | keyError : String → PyError
  | typeError : String → PyError
  | valueError : String → PyError
deriving DecidableEq

mutual

/-- Python `repr()` on the modelled values (enough of it: the values the
program builds).  `repr` of a `Request` abstracts the memory address. -/
def pyRepr : Value → String
  | .vNone => "None"
  | .vBool true => "True"
  | .vBool false => "False"
  | .vInt n => toString n
  | .vStr s => "\x27" ++ s ++ "\x27"
  | .vList l => "[" ++ pyReprList l ++ "]"
  | .vDict l => "\x7b" ++ pyReprEntries l ++ "\x7d"
  | .vRequestRef => "<Request object>"
  | .vBody a b c =>
      "Body(a=" ++ pyRepr a ++ ", b=" ++ pyRepr b ++ ", c=" ++ pyRepr c ++ ")"

/-- Comma-joined `repr`s of list items. -/
def pyReprList : List Value → String
  | [] => ""
  | [v] => pyRepr v
  | v :: rest => pyRepr v ++ ", " ++ pyReprList rest

/-- Comma-joined `repr(key): repr(value)` pairs of dict entries. -/
def pyReprEntries : List (String × Value) → String
  | [] => ""
  | [(k, v)] => "\x27" ++ k ++ "\x27: " ++ pyRepr v
  | (k, v) :: rest => "\x27" ++ k ++ "\x27: " ++ pyRepr v ++ ", " ++ pyReprEntries rest

end

/-- Python `str()`.  On strings it is the string itself; on every other
value in the model it agrees with `repr()` (true in Python for ints,
bools, `None`, lists, dicts of such, and our address-abstracted objects). -/
def pyStr : Value → String
  | .vStr s => s
  | v => pyRepr v

/-- JSON string quoting as `json.dumps` performs it (escaping `"` and
`\`; no other escape occurs in the program's data). -/
def jsonQuote (s : String) : String :=
  "\"" ++ String.join (s.toList.map (fun c =>
    if c = '"' then "\\\""
    else if c = '\\' then "\\\\"
    else String.singleton c)) ++ "\""

mutual

/-- `json.dumps` with its default separators (`", "` between items,
`": "` after keys).  Values with no JSON representation — a `Request`
reference or a raw `Body` dataclass instance — raise `TypeError`, as
CPython does. -/
def jsonDumps : Value → Except PyError String
  | .vNone => .ok "null"
  | .vBool true => .ok "true"
  | .vBool false => .ok "false"
  | .vInt n => .ok (toString n)
  | .vStr s => .ok (jsonQuote s)
  | .vList l => do
      let parts ← jsonDumpsList l
      .ok ("[" ++ String.intercalate ", " parts ++ "]")
  | .vDict l => do
      let parts ← jsonDumpsEntries l
      .ok ("\x7b" ++ String.intercalate ", " parts ++ "\x7d")
  | .vRequestRef =>
      .error (.typeError "Object of type Request is not JSON serializable")
  | .vBody _ _ _ =>
      .error (.typeError "Object of type Body is not JSON serializable")

/-- `json.dumps` of the items of a list, failing on the first bad item. -/
def jsonDumpsList : List Value → Except PyError (List String)
  | [] => .ok []
  | v :: rest => do
      let s ← jsonDumps v
      let ss ← jsonDumpsList rest
      .ok (s :: ss)

/-- `json.dumps` of dict entries, failing on the first bad value. -/
def jsonDumpsEntries : List (String × Value) → Except PyError (List String)
  | [] => .ok []
  | (k, v) :: rest => do
      let s ← jsonDumps v
      let ss ← jsonDumpsEntries rest
      .ok ((jsonQuote k ++ ": " ++ s) :: ss)

end

/-- The two concrete `Serializer` subclasses of `src/main.py`
(`TextSerializer`, `JSONSerializer`). -/
inductive Serializer : Type where
  | TextSerializer : Serializer
  | JSONSerializer : Serializer
deriving DecidableEq

/-- `Serializer.__call__`: `TextSerializer` is `str(obj).encode()`,
`JSONSerializer` is `json.dumps(obj).encode()`. -/
def Serializer.call : Serializer → Value → Except PyError String
  | .TextSerializer, v => .ok (pyStr v)
  | .JSONSerializer, v => jsonDumps v

/-- `Serializer.content_type`. -/
def Serializer.content_type : Serializer → String
  | .TextSerializer => "text"
  | .JSONSerializer => "application/json"

/-- `Response.__init__`: holds the serializer and `status = 200`. -/
structure Response : Type where
  serializer : Serializer
  status : Int := 200
deriving DecidableEq

/-- `Request.__init__`: the raw body and the response-in-progress. -/
structure Request : Type where
  body : String
  response : Response
deriving DecidableEq

/-- `RouteResponse` dataclass: optional body bytes, status (default 200),
headers dict (default empty). -/
structure RouteResponse : Type where
  body : Option String
  status : Int := 200
  headers : List (String × String) := []
deriving DecidableEq

/-- Skip JSON whitespace. -/
def skipWs : List Char → List Char
  | c :: cs =>
      if c = ' ' ∨ c = '\t' ∨ c = '\n' ∨ c = '\r' then skipWs cs else c :: cs
  | [] => []

/-- Parse the remainder of a JSON string after the opening quote
(escapes for quote and backslash; no other escape occurs in the data). -/
def parseStringBody : List Char → Option (String × List Char)
  | [] => none
  | '"' :: cs => some ("", cs)
  | '\\' :: c :: cs =>
      if c = '"' ∨ c = '\\' then
        (parseStringBody cs).map (fun p => (String.singleton c ++ p.1, p.2))
      else none
  | c :: cs => (parseStringBody cs).map (fun p => (String.singleton c ++ p.1, p.2))

/-- Take a maximal run of decimal digits. -/
def takeDigits : List Char → List Char × List Char
  | c :: cs =>
      if c.isDigit then
        let p := takeDigits cs
        (c :: p.1, p.2)
      else ([], c :: cs)
  | [] => ([], [])

/-- Numeric value of a digit run. -/
def digitsVal (ds : List Char) : Nat :=
  ds.foldl (fun n c => n * 10 + (c.toNat - 48)) 0

/-- Parse a JSON integer literal (optional minus then digits). -/
def parseIntTok : List Char → Option (Int × List Char)
  | '-' :: cs =>
      match takeDigits cs with
      | ([], _) => none
      | (ds, rest) => some (-(digitsVal ds : Int), rest)
  | cs =>
      match takeDigits cs with
      | ([], _) => none
      | (ds, rest) => some ((digitsVal ds : Int), rest)

mutual

/-- One step of `json.loads`: parse a JSON value (object, array, string,
integer, `null`, `true`, `false`), returning it with the unconsumed rest.
The fuel bounds nesting depth; `jsonLoads` supplies more than enough. -/
def jsonVal : Nat → List Char → Option (Value × List Char)
  | 0, _ => none
  | f + 1, cs =>
    match skipWs cs with
    | '\x7b' :: cs1 =>
        match skipWs cs1 with
        | '\x7d' :: cs2 => some (Value.vDict [], cs2)
        | _ => jsonObjMembers f [] cs1
    | '[' :: cs1 =>
        match skipWs cs1 with
        | ']' :: cs2 => some (Value.vList [], cs2)
        | _ => jsonArrMembers f [] cs1
    | '"' :: cs1 => (parseStringBody cs1).map (fun p => (Value.vStr p.1, p.2))
    | 'n' :: 'u' :: 'l' :: 'l' :: cs1 => some (Value.vNone, cs1)
    | 't' :: 'r' :: 'u' :: 'e' :: cs1 => some (Value.vBool true, cs1)
    | 'f' :: 'a' :: 'l' :: 's' :: 'e' :: cs1 => some (Value.vBool false, cs1)
    | cs1 => (parseIntTok cs1).map (fun p => (Value.vInt p.1, p.2))

/-- Members of a JSON object after the opening brace (later duplicate
keys overwrite earlier ones, as in Python). -/
def jsonObjMembers : Nat → List (String × Value) → List Char →
    Option (Value × List Char)
  | 0, _, _ => none
  | f + 1, acc, cs =>
    match skipWs cs with
    | '"' :: cs1 =>
      match parseStringBody cs1 with
      | none => none
      | some (k, cs2) =>
        match skipWs cs2 with
        | ':' :: cs3 =>
          match jsonVal f cs3 with
          | none => none
          | some (v, cs4) =>
            match skipWs cs4 with
            | ',' :: cs5 => jsonObjMembers f (dictSet acc k v) cs5
            | '\x7d' :: cs5 => some (Value.vDict (dictSet acc k v), cs5)
            | _ => none
        | _ => none
    | _ => none

/-- Items of a JSON array after the opening bracket. -/
def jsonArrMembers : Nat → List Value → List Char → Option (Value × List Char)
  | 0, _, _ => none
  | f + 1, acc, cs =>
    match jsonVal f cs with
    | none => none
    | some (v, cs1) =>
      match skipWs cs1 with
      | ',' :: cs2 => jsonArrMembers f (acc ++ [v]) cs2
      | ']' :: cs2 => some (Value.vList (acc ++ [v]), cs2)
      | _ => none

end

/-- `json.loads`: parse the whole input (integers only for numbers; no
float appears in the program or claims).  Failure is Python's
`json.JSONDecodeError`, a `ValueError`. -/
def jsonLoads (s : String) : Except PyError Value :=
  match jsonVal (s.length + 1) s.toList with
  | some (v, rest) =>
      if skipWs rest = [] then .ok v else .error (.valueError "Extra data")
  | none => .error (.valueError "Expecting value")

/-- Python type objects used as annotations / resolution-table keys in the
program: the `Request` class, the `Body` dataclass, the missing-annotation
marker `inspect.Parameter.empty`, and other classes (e.g. a strict
subclass of `Request`), distinguished by name — distinct Python classes
are distinct dict keys. -/
inductive PyType : Type where
  | Request : PyType
  | Body : PyType
  | emptyAnn : PyType
  | custom : String → PyType
deriving DecidableEq

/-- `repr` of a type object, as a raised `KeyError` carries it. -/
def pyTypeRepr : PyType → String
  | .Request => "<class \x27Request\x27>"
  | .Body => "<class \x27Body\x27>"
  | .emptyAnn => "<class \x27inspect._empty\x27>"
  | .custom s => "<class \x27" ++ s ++ "\x27>"

/-- A registered resolver (`Callable[[Request], Any]`).  The returned
`Request` is the request's state after the call: a resolver holding a
reference to the request could mutate it, so the state is threaded. -/
abbrev Resolver := Request → Except PyError (Request × Value)

/-- `repr` of a `(method, path)` tuple, as the route-table `KeyError`
carries it. -/
def tupleRepr (method path : String) : String :=
  "(\x27" ++ method ++ "\x27, \x27" ++ path ++ "\x27)"

mutual

/-- `dataclasses.asdict`: recursively convert dataclass instances to
dicts, copying through dicts and lists. -/
def asdict : Value → Value
  | .vBody x y z => .vDict [("a", asdict x), ("b", asdict y), ("c", asdict z)]
  | .vDict l => .vDict (asdictEntries l)
  | .vList l => .vList (asdictItems l)
  | v => v

/-- `dataclasses.asdict` over dict entries. -/
def asdictEntries : List (String × Value) → List (String × Value)
  | [] => []
  | (k, v) :: rest => (k, asdict v) :: asdictEntries rest

/-- `dataclasses.asdict` over list items. -/
def asdictItems : List Value → List Value
  | [] => []
  | v :: rest => asdict v :: asdictItems rest

end

/-- `Body.from_request`: `d = json.loads(request.body); return cls(**d)`.
`cls(**d)` succeeds exactly when `d` is a dict with the keys
`a`, `b`, `c` and no others; otherwise CPython raises `TypeError`
(messages abbreviated).  The request is not mutated. -/
def Body.from_request (request : Request) : Except PyError (Request × Value) :=
  match jsonLoads request.body with
  | .error e => .error e
  | .ok (.vDict l) =>
      match dictGet l "a", dictGet l "b", dictGet l "c" with
      | some x, some y, some z =>
          if l.length = 3 then .ok (request, .vBody x y z)
          else .error (.typeError "unexpected keyword argument")
      | _, _, _ => .error (.typeError "missing required positional argument")
  | .ok _ => .error (.typeError "argument after ** must be a mapping")

/-- A Python handler function as dispatch sees it: `params` is
`inspect.signature(fn).parameters` — the declared `(name, annotation)`
pairs in declaration order, `PyType.emptyAnn` when unannotated —
and `run` is the body, applied to the keyword arguments (`fn(**kwargs)`)
with the dispatch's live request state threaded through (a handler that
mutates the request it holds a reference to returns the updated state). -/
structure Handler : Type where
  params : List (String × PyType)
  run : List (String × Value) → Request → Except PyError (Request × Value)

/-- The built-in resolver `lambda r: r` of `Injector.default_parsers`: it
returns the request object itself, unchanged. -/
def requestIdentity : Resolver := fun r => .ok (r, Value.vRequestRef)

/-- `Injector.default_parsers()`: the table `{Request: lambda r: r}`. -/
def Injector.default_parsers : List (PyType × Resolver) :=
  [(PyType.Request, requestIdentity)]

/-- `Injector`: the resolution table `self.parsers`. -/
structure Injector : Type where
  parsers : List (PyType × Resolver)

/-- `Injector.__init__`: `self.parsers = self.default_parsers()`. -/
def Injector.init : Injector := ⟨Injector.default_parsers⟩

/-- `Injector.register(typ, parser)`: `self.parsers[typ] = parser`. -/
def Injector.register (self : Injector) (typ : PyType) (p : Resolver) : Injector :=
  ⟨dictSet self.parsers typ p⟩

/-- The loop of `Injector.__call__`: walk the remaining `(name,
annotation)` pairs in order, accumulating `kwargs[name] = parser(request)`;
`self.parsers[v.annotation]` raises `KeyError` when the annotation is not
a key of the table. -/
def Injector.callGo (self : Injector) :
    List (String × PyType) → Request → List (String × Value) →
      Except PyError (Request × List (String × Value))
  | [], req, kwargs => .ok (req, kwargs)
  | (name, ann) :: rest, req, kwargs =>
      match dictGet self.parsers ann with
      | none => .error (.keyError (pyTypeRepr ann))
      | some p =>
          match p req with
          | .error e => .error e
          | .ok (req1, v) => Injector.callGo self rest req1 (dictSet kwargs name v)

/-- `Injector.__call__(fn, request)`: build the kwargs dict from `fn`'s
signature, starting from `kwargs = {}`. -/
def Injector.call (self : Injector) (params : List (String × PyType))
    (req : Request) : Except PyError (Request × List (String × Value)) :=
  Injector.callGo self params req []

/-- `Router.__init__`: default serializer, injector, `self.handlers = {}`. -/
structure Router : Type where
  serializer : Serializer
  injector : Injector
  handlers : List ((String × String) × Handler)

/-- `Router._decorate(method, path)` applied to `fn`:
`self.handlers[(method, path)] = fn`. -/
def Router._decorate (self : Router) (method path : String) (fn : Handler) :
    Router :=
  { self with handlers := dictSet self.handlers (method, path) fn }

/-- `Router.get(path)` as a registration. -/
def Router.get (self : Router) (path : String) (fn : Handler) : Router :=
  self._decorate "GET" path fn

/-- `Router.post(path)` as a registration. -/
def Router.post (self : Router) (path : String) (fn : Handler) : Router :=
  self._decorate "POST" path fn

/-- The stages of `Router.handle` after the route-table lookup: resolve
the kwargs, call the handler, encode its return value with the
post-handler `request.response.serializer`, and build the
`RouteResponse`.  The returned `Router` is the router's state after the
dispatch (`handle` assigns to none of its fields). -/
def Router.dispatchWith (self : Router) (handler : Handler) (request : Request) :
    Except PyError (Router × RouteResponse) :=
  match self.injector.call handler.params request with
  | .error e => .error e
  | .ok (req1, kwargs) =>
      match handler.run kwargs req1 with
      | .error e => .error e
      | .ok (req2, r) =>
          match req2.response.serializer.call r with
          | .error e => .error e
          | .ok encoded =>
              .ok (self,
                { body := some encoded,
                  status := req2.response.status,
                  headers := [("content-type",
                               req2.response.serializer.content_type)] })

/-- `Router.handle(method, path, body)`: construct
`Request(body, Response(self.serializer))`, look up
`self.handlers[(method, path)]` (raising `KeyError` when absent), then
run the dispatch pipeline. -/
def Router.handle (self : Router) (method path : String) (body : String) :
    Except PyError (Router × RouteResponse) :=
  let request : Request := { body := body, response := { serializer := self.serializer } }
  match dictGet self.handlers (method, path) with
  | none => .error (.keyError (tupleRepr method path))
  | some handler => self.dispatchWith handler request

namespace app

/-- Module-level `injector`, after `injector.register(Body, Body.from_request)`. -/
def injector : Injector := Injector.init.register PyType.Body Body.from_request

/-- Handler `a` (`GET "/"`): no parameters, returns `{"result": "test"}`. -/
def a : Handler where
  params := []
  run := fun _ req => .ok (req, .vDict [("result", .vStr "test")])

/-- Handler `b` (`GET "/text"`): one `Request`-annotated parameter `r`;
sets `r.response.serializer = TextSerializer()` and returns
`{"result": r}`.  When `r` is bound to the dispatch's request (the only
case arising in the program), the mutation lands on that request. -/
def b : Handler where
  params := [("r", PyType.Request)]
  run := fun kwargs req =>
    match dictGet kwargs "r" with
    | some Value.vRequestRef =>
        .ok ({ req with response :=
                 { req.response with serializer := .TextSerializer } },
             .vDict [("result", Value.vRequestRef)])
    | some _ => .error (.typeError "object has no attribute response")
    | none => .error (.typeError "b() missing 1 required positional argument")

/-- Handler `c` (`POST "/body"`): one `Body`-annotated parameter; returns
`{"body": dataclasses.asdict(body)}`. -/
def c : Handler where
  params := [("body", PyType.Body)]
  run := fun kwargs req =>
    match dictGet kwargs "body" with
    | some (Value.vBody x y z) => .ok (req, .vDict [("body", asdict (.vBody x y z))])
    | some _ => .error (.typeError "asdict() should be called on dataclass instances")
    | none => .error (.typeError "c() missing 1 required positional argument")

/-- Module-level `router = Router(serializer=JSONSerializer(),
injector=injector)` with the three decorated registrations applied in
source order. -/
def router : Router :=
  (((Router.mk Serializer.JSONSerializer injector []).get "/" a).get
      "/text" b).post "/body" c

end app

theorem dictGet_cons {α β : Type} [DecidableEq α] (a : α) (b : β)
    (t : List (α × β)) (k : α) :
    dictGet ((a, b) :: t) k = if a = k then some b else dictGet t k := by
  by_cases h : a = k <;> simp [dictGet, List.find?_cons, h]

theorem dictGet_dictSet_self {α β : Type} [DecidableEq α]
    (l : List (α × β)) (k : α) (v : β) :
    dictGet (dictSet l k v) k = some v := by
  induction l with
  | nil => simp [dictSet, dictGet, List.find?]
  | cons hd t ih =>
    obtain ⟨a, b⟩ := hd
    by_cases h : a = k <;> simp [dictSet, h, dictGet_cons, ih]

theorem dictGet_dictSet_ne {α β : Type} [DecidableEq α]
    (l : List (α × β)) (k k' : α) (v : β) (hne : k' ≠ k) :
    dictGet (dictSet l k v) k' = dictGet l k' := by
  have hkk : k ≠ k' := Ne.symm hne
  induction l with
  | nil => simp [dictSet, dictGet_cons, hkk, dictGet]
  | cons hd t ih =>
    obtain ⟨a, b⟩ := hd
    by_cases h : a = k
    · subst h
      simp [dictSet, dictGet_cons, hkk]
    · simp [dictSet, h, dictGet_cons, ih]

theorem dictGet_dictSet {α β : Type} [DecidableEq α]
    (l : List (α × β)) (k k' : α) (v : β) :
    dictGet (dictSet l k v) k' = if k' = k then some v else dictGet l k' := by
  by_cases h : k' = k
  · subst h; simp [dictGet_dictSet_self]
  · simp [h, dictGet_dictSet_ne l k k' v h]

theorem dictSet_of_not_mem {α β : Type} [DecidableEq α]
    (l : List (α × β)) (k : α) (v : β) (h : k ∉ l.map Prod.fst) :
    dictSet l k v = l ++ [(k, v)] := by
  induction l with
  | nil => rfl
  | cons hd t ih =>
    obtain ⟨a, b⟩ := hd
    simp only [List.map_cons, List.mem_cons] at h
    push_neg at h
    have ha : a ≠ k := Ne.symm h.1
    simp [dictSet, ha, ih h.2]

theorem dictSet_dictSet {α β : Type} [DecidableEq α]
    (l : List (α × β)) (k : α) (v1 v2 : β) :
    dictSet (dictSet l k v1) k v2 = dictSet l k v2 := by
  induction l with
  | nil => simp [dictSet]
  | cons hd t ih =>
    obtain ⟨a, b⟩ := hd
    by_cases h : a = k <;> simp [dictSet, h, ih]

/-- The parameter-resolution algorithm as the specification words it
(§4.3), for comparison with `Injector.__call__`: walk the declared
`(name, type)` pairs in declaration order; on a type with no entry fail
(with the `KeyError` naming the missing type that the code actually
raises); otherwise invoke the registered resolver on the current request
and bind its value to the name, yielding the bindings in declaration
order. -/
def resolveSpec (table : List (PyType × Resolver)) :
    List (String × PyType) → Request →
      Except PyError (Request × List (String × Value))
  | [], req => .ok (req, [])
  | (name, ann) :: rest, req =>
      match dictGet table ann with
      | none => .error (.keyError (pyTypeRepr ann))
      | some p =>
          match p req with
          | .error e => .error e
          | .ok (req1, v) =>
              match resolveSpec table rest req1 with
              | .error e => .error e
              | .ok (req2, kwargs) => .ok (req2, (name, v) :: kwargs)

theorem Injector.callGo_acc (inj : Injector) (params : List (String × PyType)) :
    ∀ (req : Request) (acc : List (String × Value)),
    (params.map Prod.fst).Nodup →
    (∀ n ∈ params.map Prod.fst, n ∉ acc.map Prod.fst) →
    Injector.callGo inj params req acc =
      (resolveSpec inj.parsers params req).map (fun p => (p.1, acc ++ p.2)) := by
  induction params with
  | nil => intro req acc _ _; simp [Injector.callGo, resolveSpec, Except.map]
  | cons hd tl ih =>
    obtain ⟨name, ann⟩ := hd
    intro req acc hnd hdisj
    rw [List.map_cons, List.nodup_cons] at hnd
    obtain ⟨hna, hnd'⟩ := hnd
    simp only [Injector.callGo, resolveSpec]
    cases hlk : dictGet inj.parsers ann with
    | none => simp [Except.map]
    | some p =>
      cases hp : p req with
      | error e => simp [hp, Except.map]
      | ok rv =>
        obtain ⟨req1, v⟩ := rv
        have hname : name ∉ acc.map Prod.fst := hdisj name (by simp)
        have hdisj' : ∀ n ∈ tl.map Prod.fst,
            n ∉ (acc ++ [(name, v)]).map Prod.fst := by
          intro n hn
          simp only [List.map_append, List.mem_append, List.map_cons,
            List.map_nil, List.mem_singleton]
          push_neg
          exact ⟨hdisj n (by simp [hn]), fun h => hna (h ▸ hn)⟩
        simp only [hp]
        rw [dictSet_of_not_mem acc name v hname,
          ih req1 (acc ++ [(name, v)]) hnd' hdisj']
        cases hr : resolveSpec inj.parsers tl req1 with
        | error e => simp [Except.map]
        | ok rp =>
          obtain ⟨req2, kw⟩ := rp
          simp [Except.map, List.append_assoc]

/-- `Injector.__call__` computes exactly the specification's resolution
algorithm whenever the handler's parameter names are distinct (they
always are: Python forbids duplicate parameter names). -/
theorem Injector.call_eq_resolveSpec (inj : Injector)
    (params : List (String × PyType)) (req : Request)
    (hnd : (params.map Prod.fst).Nodup) :
    inj.call params req = resolveSpec inj.parsers params req := by
  unfold Injector.call
  rw [Injector.callGo_acc inj params req [] hnd (by simp)]
  cases hr : resolveSpec inj.parsers params req <;> simp [Except.map]

/-- In a resolution table whose `Request` entry is the built-in identity
resolver, a successfully resolved argument mapping binds every
`Request`-annotated parameter to the dispatch's request object. -/
theorem resolveSpec_request_binding (table : List (PyType × Resolver))
    (params : List (String × PyType)) :
    ∀ (req req' : Request) (kwargs : List (String × Value)) (n : String),
    dictGet table PyType.Request = some requestIdentity →
    (n, PyType.Request) ∈ params →
    (params.map Prod.fst).Nodup →
    resolveSpec table params req = .ok (req', kwargs) →
    dictGet kwargs n = some Value.vRequestRef := by
  induction params with
  | nil => intro req req' kwargs n _ hmem _ _; simp at hmem
  | cons hd tl ih =>
    obtain ⟨name, ann⟩ := hd
    intro req req' kwargs n htab hmem hnd hres
    rw [List.map_cons, List.nodup_cons] at hnd
    obtain ⟨hna, hnd'⟩ := hnd
    rcases List.mem_cons.mp hmem with heq | hmem'
    · injection heq with hn hann
      subst hn
      subst hann
      simp only [resolveSpec, htab, requestIdentity] at hres
      cases hr : resolveSpec table tl req with
      | error e => simp [hr] at hres
      | ok rp =>
        obtain ⟨req2, kw⟩ := rp
        simp only [hr, Except.ok.injEq, Prod.mk.injEq] at hres
        obtain ⟨-, hkw⟩ := hres
        subst hkw
        simp [dictGet_cons]
    · have hntl : n ∈ tl.map Prod.fst := List.mem_map.mpr ⟨_, hmem', rfl⟩
      have hne : n ≠ name := fun h => hna (h ▸ hntl)
      simp only [resolveSpec] at hres
      cases hlk : dictGet table ann with
      | none => simp [hlk] at hres
      | some p =>
        cases hp : p req with
        | error e => simp [hlk, hp] at hres
        | ok rv =>
          obtain ⟨req1, v⟩ := rv
          cases hr : resolveSpec table tl req1 with
          | error e => simp [hlk, hp, hr] at hres
          | ok rp =>
            obtain ⟨req2, kw⟩ := rp
            simp only [hlk, hp, hr, Except.ok.injEq, Prod.mk.injEq] at hres
            obtain ⟨-, hkw⟩ := hres
            subst hkw
            rw [dictGet_cons, if_neg (Ne.symm hne)]
            exact ih req1 req2 kw n htab hmem' hnd' hr

/-- Dispatch of a registered route runs the post-lookup pipeline on the
freshly constructed request (body, default serializer, status 200). -/
theorem Router.handle_found (router : Router) (m p body : String) (h : Handler)
    (hlk : dictGet router.handlers (m, p) = some h) :
    router.handle m p body =
      router.dispatchWith h ⟨body, ⟨router.serializer, 200⟩⟩ := by
  simp [Router.handle, hlk]

/-- Dispatch of an unregistered route is the route-table `KeyError`. -/
theorem Router.handle_not_found (router : Router) (m p body : String)
    (hlk : dictGet router.handlers (m, p) = none) :
    router.handle m p body = .error (.keyError (tupleRepr m p)) := by
  simp [Router.handle, hlk]

/-- The pipeline when every stage succeeds: the response is built from
the post-handler request state. -/
theorem Router.dispatchWith_ok (router : Router) (h : Handler)
    (req req1 req2 : Request) (kwargs : List (String × Value)) (r : Value)
    (encoded : String)
    (h1 : router.injector.call h.params req = .ok (req1, kwargs))
    (h2 : h.run kwargs req1 = .ok (req2, r))
    (h3 : req2.response.serializer.call r = .ok encoded) :
    router.dispatchWith h req =
      .ok (router, ⟨some encoded, req2.response.status,
        [("content-type", req2.response.serializer.content_type)]⟩) := by
  simp [Router.dispatchWith, h1, h2, h3]

/-- A resolution failure propagates out of the pipeline unchanged. -/
theorem Router.dispatchWith_call_error (router : Router) (h : Handler)
    (req : Request) (e : PyError)
    (h1 : router.injector.call h.params req = .error e) :
    router.dispatchWith h req = .error e := by
  simp [Router.dispatchWith, h1]

/-- A handler failure propagates out of the pipeline unchanged. -/
theorem Router.dispatchWith_run_error (router : Router) (h : Handler)
    (req req1 : Request) (kwargs : List (String × Value)) (e : PyError)
    (h1 : router.injector.call h.params req = .ok (req1, kwargs))
    (h2 : h.run kwargs req1 = .error e) :
    router.dispatchWith h req = .error e := by
  simp [Router.dispatchWith, h1, h2]

/-- An encoding failure propagates out of the pipeline unchanged. -/
theorem Router.dispatchWith_encode_error (router : Router) (h : Handler)
    (req req1 req2 : Request) (kwargs : List (String × Value)) (r : Value)
    (e : PyError)
    (h1 : router.injector.call h.params req = .ok (req1, kwargs))
    (h2 : h.run kwargs req1 = .ok (req2, r))
    (h3 : req2.response.serializer.call r = .error e) :
    router.dispatchWith h req = .error e := by
  simp [Router.dispatchWith, h1, h2, h3]

/-- Registering twice under one key is registering the second handler
once: the first registration leaves no trace in the router. -/
theorem Router.decorate_decorate (router : Router) (m p : String)
    (h1 h2 : Handler) :
    (router._decorate m p h1)._decorate m p h2 = router._decorate m p h2 := by
  simp [Router._decorate, dictSet_dictSet]

/-- A dispatch that returns at all returns the router unchanged. -/
theorem Router.handle_router_frame (router : Router) (m p body : String)
    (router' : Router) (resp : RouteResponse)
    (hok : router.handle m p body = .ok (router', resp)) :
    router' = router := by
  simp only [Router.handle] at hok
  cases hlk : dictGet router.handlers (m, p) with
  | none => simp [hlk] at hok
  | some h =>
    simp only [hlk, Router.dispatchWith] at hok
    cases hc : router.injector.call h.params
        ⟨body, ⟨router.serializer, 200⟩⟩ with
    | error e => simp [hc] at hok
    | ok rkw =>
      obtain ⟨req1, kwargs⟩ := rkw
      cases hrun : h.run kwargs req1 with
      | error e => simp [hc, hrun] at hok
      | ok rr =>
        obtain ⟨req2, r⟩ := rr
        cases henc : req2.response.serializer.call r with
        | error e => simp [hc, hrun, henc] at hok
        | ok encoded =>
          simp only [hc, hrun, henc, Except.ok.injEq, Prod.mk.injEq] at hok
          exact hok.1.symm

/-- C1: after registering the GET "/" handler returning
`{"result": "test"}` on the demo router (default serializer: JSON),
`dispatch("GET", "/", "")` returns a RouteResponse with status 200,
headers exactly `{"content-type": "application/json"}`, and body
`b'{"result": "test"}'`. -/
theorem spec_C1 :
    app.router.handle "GET" "/" "" =
      .ok (app.router,
        ⟨some "\x7b\"result\": \"test\"\x7d", 200,
         [("content-type", "application/json")]⟩) := rfl

/-- C2 counterexample: `dispatch("GET", "/missing", "")` on the demo
router is a route-not-found failure (not an UnresolvedDependencyError —
no such class exists in the program), yet dispatch returns no
RouteResponse: it propagates the raw `KeyError` of the route-table
lookup, refuting the claim that the Router catches failures at the
dispatch boundary. -/
theorem spec_C2_counterexample :
    app.router.handle "GET" "/missing" "" =
      .error (.keyError (tupleRepr "GET" "/missing")) := rfl

/-- C2 (amended): the Router catches nothing at the dispatch boundary:
every taxonomy failure — no route registered, resolution failing (a
missing resolver for a declared type or a registered resolver raising),
the handler raising, or the serializer failing to encode — propagates
out of dispatch as the raw exception, and no RouteResponse is produced
on a failed dispatch. -/
theorem spec_C2 (router : Router) (m p body : String) (h : Handler)
    (req1 req2 : Request) (kwargs : List (String × Value)) (r : Value)
    (e : PyError) :
    (dictGet router.handlers (m, p) = none →
      router.handle m p body = .error (.keyError (tupleRepr m p))) ∧
    (dictGet router.handlers (m, p) = some h →
      router.injector.call h.params ⟨body, ⟨router.serializer, 200⟩⟩ =
        .error e →
      router.handle m p body = .error e) ∧
    (dictGet router.handlers (m, p) = some h →
      router.injector.call h.params ⟨body, ⟨router.serializer, 200⟩⟩ =
        .ok (req1, kwargs) →
      h.run kwargs req1 = .error e →
      router.handle m p body = .error e) ∧
    (dictGet router.handlers (m, p) = some h →
      router.injector.call h.params ⟨body, ⟨router.serializer, 200⟩⟩ =
        .ok (req1, kwargs) →
      h.run kwargs req1 = .ok (req2, r) →
      req2.response.serializer.call r = .error e →
      router.handle m p body = .error e) := by
  refine ⟨fun hlk => Router.handle_not_found router m p body hlk,
    fun hlk h1 => ?_, fun hlk h1 h2 => ?_, fun hlk h1 h2 h3 => ?_⟩
  · rw [Router.handle_found router m p body h hlk]
    exact Router.dispatchWith_call_error router h _ e h1
  · rw [Router.handle_found router m p body h hlk]
    exact Router.dispatchWith_run_error router h _ req1 kwargs e h1 h2
  · rw [Router.handle_found router m p body h hlk]
    exact Router.dispatchWith_encode_error router h _ req1 req2 kwargs r e h1 h2 h3

/-- C2 witness: the no-route branch of the amended claim at a concrete
input. -/
theorem spec_C2_witness :
    app.router.handle "PUT" "/" "" =
      .error (.keyError (tupleRepr "PUT" "/")) :=
  (spec_C2 app.router "PUT" "/" "" app.a ⟨"", ⟨.JSONSerializer, 200⟩⟩
    ⟨"", ⟨.JSONSerializer, 200⟩⟩ [] .vNone (.keyError "")).1 (by rfl)

/-- C3 counterexample: dispatch of the unregistered key
`("DELETE", "/")` fails with the builtin `KeyError` carrying the key
tuple; the program defines no `RouteNotFoundError` class, so the failure
is not a `RouteNotFoundError`. -/
theorem spec_C3_counterexample :
    app.router.handle "DELETE" "/" "" =
      .error (.keyError (tupleRepr "DELETE" "/")) := rfl

/-- C3 (amended): for every (method, path) pair with no registered
handler, dispatch fails with the builtin `KeyError` carrying the
(method, path) tuple (there is no RouteNotFoundError class), and no
handler function is invoked during that dispatch: the result coincides
with that of a router holding no handlers and no resolvers at all. -/
theorem spec_C3 (router : Router) (m p body : String)
    (hlk : dictGet router.handlers (m, p) = none) :
    router.handle m p body = .error (.keyError (tupleRepr m p)) ∧
    router.handle m p body =
      (Router.mk router.serializer ⟨[]⟩ []).handle m p body := by
  refine ⟨Router.handle_not_found router m p body hlk, ?_⟩
  rw [Router.handle_not_found router m p body hlk,
    Router.handle_not_found (Router.mk router.serializer ⟨[]⟩ []) m p body rfl]

/-- C3 witness: the amended claim at the concrete unregistered route
`("GET", "/nope")`. -/
theorem spec_C3_witness :
    app.router.handle "GET" "/nope" "" =
        .error (.keyError (tupleRepr "GET" "/nope")) ∧
    app.router.handle "GET" "/nope" "" =
      (Router.mk app.router.serializer ⟨[]⟩ []).handle "GET" "/nope" "" :=
  spec_C3 app.router "GET" "/nope" "" (by rfl)

/-- C4 counterexample: a declared type with no table entry makes
resolution fail with the builtin `KeyError` carrying only the repr of
the missing type — not an `UnresolvedDependencyError` (no such class
exists in the program), and the failure does not name the handler. -/
theorem spec_C4_counterexample :
    Injector.init.call [("x", PyType.custom "Widget")]
        ⟨"", ⟨.JSONSerializer, 200⟩⟩ =
      .error (.keyError (pyTypeRepr (PyType.custom "Widget"))) := rfl

/-- C4 (amended): `Injector.__call__` computes exactly the declared
resolution algorithm: walk the handler's (name, type) pairs in
declaration order; when a declared type has no entry in the resolution
table, fail with a `KeyError` naming (only) the missing type; otherwise
call the registered resolver with the current request and bind its
return value to the parameter name.  (Parameter names are distinct in
any Python signature.) -/
theorem spec_C4 (inj : Injector) (params : List (String × PyType))
    (req : Request) (hnd : (params.map Prod.fst).Nodup) :
    inj.call params req = resolveSpec inj.parsers params req :=
  Injector.call_eq_resolveSpec inj params req hnd

/-- C4 witness: the amended claim at a concrete one-parameter
signature. -/
theorem spec_C4_witness :
    ([("r", PyType.Request)].map Prod.fst).Nodup ∧
    app.injector.call [("r", PyType.Request)] ⟨"", ⟨.JSONSerializer, 200⟩⟩ =
      resolveSpec app.injector.parsers [("r", PyType.Request)]
        ⟨"", ⟨.JSONSerializer, 200⟩⟩ :=
  ⟨by decide,
   spec_C4 app.injector [("r", PyType.Request)]
     ⟨"", ⟨.JSONSerializer, 200⟩⟩ (by decide)⟩

/-- C5: in any dispatch whose handler declares a Request-annotated
parameter (with the built-in identity entry for the Request type in
place), the value bound to that parameter is the request object of that
very dispatch (`Value.vRequestRef`, the model's reference to the single
live request), and the returned RouteResponse takes both its
content-type header and its body encoding from the post-handler
`request.response.serializer` — so a serializer replacement performed by
the handler before returning is reflected in both. -/
theorem spec_C5 (router : Router) (m p body : String) (h : Handler)
    (n : String) (req1 req2 : Request) (kwargs : List (String × Value))
    (r : Value) (encoded : String)
    (htab : dictGet router.injector.parsers PyType.Request =
      some requestIdentity)
    (hlk : dictGet router.handlers (m, p) = some h)
    (hmem : (n, PyType.Request) ∈ h.params)
    (hnd : (h.params.map Prod.fst).Nodup)
    (hcall : router.injector.call h.params ⟨body, ⟨router.serializer, 200⟩⟩ =
      .ok (req1, kwargs))
    (hrun : h.run kwargs req1 = .ok (req2, r))
    (henc : req2.response.serializer.call r = .ok encoded) :
    dictGet kwargs n = some Value.vRequestRef ∧
    router.handle m p body =
      .ok (router, ⟨some encoded, req2.response.status,
        [("content-type", req2.response.serializer.content_type)]⟩) := by
  constructor
  · rw [Injector.call_eq_resolveSpec router.injector h.params
      ⟨body, ⟨router.serializer, 200⟩⟩ hnd] at hcall
    exact resolveSpec_request_binding router.injector.parsers h.params
      ⟨body, ⟨router.serializer, 200⟩⟩ req1 kwargs n htab hmem hnd hcall
  · rw [Router.handle_found router m p body h hlk]
    exact Router.dispatchWith_ok router h _ req1 req2 kwargs r encoded
      hcall hrun henc

/-- C5 witness: the dispatch of handler `b` at `GET "/text"`, which
swaps the serializer to text before returning. -/
theorem spec_C5_witness :
    dictGet [("r", Value.vRequestRef)] "r" = some Value.vRequestRef ∧
    app.router.handle "GET" "/text" "" =
      .ok (app.router, ⟨some "\x7b\x27result\x27: <Request object>\x7d", 200,
        [("content-type", "text")]⟩) :=
  spec_C5 app.router "GET" "/text" "" app.b "r"
    ⟨"", ⟨.JSONSerializer, 200⟩⟩ ⟨"", ⟨.TextSerializer, 200⟩⟩
    [("r", Value.vRequestRef)] (.vDict [("result", Value.vRequestRef)])
    "\x7b\x27result\x27: <Request object>\x7d"
    (by rfl) (by rfl) (by decide) (by decide) (by rfl) (by rfl) (by rfl)

/-- C6: registering a second handler under an already-registered
(method, path) key replaces the first (last registration wins): the
doubly-registered router equals the router with only the new handler
registered, its route table maps the key to the new handler, and every
dispatch performed after the re-registration behaves exactly as if the
old handler had never been registered. -/
theorem spec_C6 (router : Router) (m p : String) (h1 h2 : Handler) :
    (router._decorate m p h1)._decorate m p h2 = router._decorate m p h2 ∧
    dictGet ((router._decorate m p h1)._decorate m p h2).handlers (m, p) =
      some h2 ∧
    ∀ m' p' body,
      ((router._decorate m p h1)._decorate m p h2).handle m' p' body =
        (router._decorate m p h2).handle m' p' body := by
  refine ⟨Router.decorate_decorate router m p h1 h2, ?_, ?_⟩
  · rw [Router.decorate_decorate router m p h1 h2]
    simp [Router._decorate, dictGet_dictSet_self]
  · intro m' p' body
    rw [Router.decorate_decorate router m p h1 h2]

/-- C7: route keys match on exact string equality of method and path: a
lookup after registering a handler at (m, p) finds it exactly when both
strings match exactly and is otherwise untouched; dispatch of a
registered key runs exactly the registered handler's pipeline; and
"/text" versus "/text/" are distinct routes — registering a second
handler at GET "/text/" leaves GET "/text" routed to the original
handler. -/
theorem spec_C7 (router : Router) (m p m' p' : String) (h : Handler)
    (body : String) :
    (dictGet (router._decorate m p h).handlers (m', p') =
      if m' = m ∧ p' = p then some h
      else dictGet router.handlers (m', p')) ∧
    (∀ hh, dictGet router.handlers (m', p') = some hh →
      router.handle m' p' body =
        router.dispatchWith hh ⟨body, ⟨router.serializer, 200⟩⟩) ∧
    dictGet (app.router.get "/text/" app.a).handlers ("GET", "/text") =
      some app.b ∧
    dictGet (app.router.get "/text/" app.a).handlers ("GET", "/text/") =
      some app.a := by
  refine ⟨?_, fun hh hlk => Router.handle_found router m' p' body hh hlk,
    rfl, rfl⟩
  simp only [Router._decorate]
  rw [dictGet_dictSet router.handlers (m, p) (m', p') h]
  by_cases hc : (m', p') = (m, p)
  · rw [if_pos hc, if_pos (by simpa [Prod.ext_iff] using hc)]
  · rw [if_neg hc, if_neg (by simpa [Prod.ext_iff] using hc)]

/-- C7 witness: dispatch of the registered key `("GET", "/")` runs
exactly handler `a`'s pipeline. -/
theorem spec_C7_witness :
    app.router.handle "GET" "/" "" =
      app.router.dispatchWith app.a ⟨"", ⟨Serializer.JSONSerializer, 200⟩⟩ :=
  (spec_C7 app.router "GET" "/" "GET" "/" app.a "").2.1 app.a (by rfl)

/-- C8: with the Body resolver registered (JSON-decode the request body
into the record) and the POST "/body" handler taking one Body-annotated
parameter, the resolver turns the body bytes
`b'{"a":1,"b":"x","c":{}}'` into `Body(a=1, b="x", c={})`, and the
dispatch returns the JSON-encoded echo
`{"body": {"a": 1, "b": "x", "c": {}}}` of that record. -/
theorem spec_C8 :
    Body.from_request ⟨"\x7b\"a\":1,\"b\":\"x\",\"c\":\x7b\x7d\x7d",
        ⟨.JSONSerializer, 200⟩⟩ =
      .ok (⟨"\x7b\"a\":1,\"b\":\"x\",\"c\":\x7b\x7d\x7d",
        ⟨.JSONSerializer, 200⟩⟩,
        .vBody (.vInt 1) (.vStr "x") (.vDict [])) ∧
    app.router.handle "POST" "/body" "\x7b\"a\":1,\"b\":\"x\",\"c\":\x7b\x7d\x7d" =
      .ok (app.router,
        ⟨some "\x7b\"body\": \x7b\"a\": 1, \"b\": \"x\", \"c\": \x7b\x7d\x7d\x7d",
         200, [("content-type", "application/json")]⟩) :=
  ⟨rfl, rfl⟩

/-- C9: resolver lookup keys on exact equality of the declared type: the
built-in table contains the identity entry for the Request type, whose
resolver returns the request unchanged; any annotation with no entry of
its own — a strict subtype of a registered type, or a missing annotation
(`inspect.Parameter.empty`) — makes resolution fail rather than match a
registered supertype. -/
theorem spec_C9 :
    dictGet Injector.init.parsers PyType.Request = some requestIdentity ∧
    (∀ req : Request, requestIdentity req = .ok (req, Value.vRequestRef)) ∧
    (∀ (inj : Injector) (n : String) (ty : PyType)
        (rest : List (String × PyType)) (req : Request),
      dictGet inj.parsers ty = none →
      inj.call ((n, ty) :: rest) req = .error (.keyError (pyTypeRepr ty))) ∧
    dictGet Injector.init.parsers (PyType.custom "SubRequest") = none ∧
    dictGet Injector.init.parsers PyType.emptyAnn = none := by
  refine ⟨rfl, fun req => rfl, ?_, rfl, rfl⟩
  intro inj n ty rest req hlk
  simp [Injector.call, Injector.callGo, hlk]

/-- C9 witness: a `Request` subclass annotation is not resolved by the
built-in table (exact-type lookup, no subtype matching). -/
theorem spec_C9_witness :
    Injector.init.call [("x", PyType.custom "SubRequest")]
        ⟨"", ⟨.JSONSerializer, 200⟩⟩ =
      .error (.keyError (pyTypeRepr (PyType.custom "SubRequest"))) :=
  spec_C9.2.2.1 Injector.init "x" (PyType.custom "SubRequest") []
    ⟨"", ⟨.JSONSerializer, 200⟩⟩ (by rfl)

/-- C10: a dispatch leaves the router's route table, its configured
default serializer and the injector's resolution table unchanged: any
router state coming out of `handle` equals the input router.
Concretely, the "/text" dispatch — whose handler replaces its request's
serializer — returns the demo router unchanged, and a subsequent "/"
dispatch again starts from the router's default JSON serializer. -/
theorem spec_C10 :
    (∀ (router router' : Router) (m p body : String) (resp : RouteResponse),
      router.handle m p body = .ok (router', resp) →
      router' = router ∧ router'.handlers = router.handlers ∧
      router'.serializer = router.serializer ∧
      router'.injector.parsers = router.injector.parsers) ∧
    app.router.handle "GET" "/text" "" =
      .ok (app.router, ⟨some "\x7b\x27result\x27: <Request object>\x7d", 200,
        [("content-type", "text")]⟩) ∧
    app.router.handle "GET" "/" "" =
      .ok (app.router, ⟨some "\x7b\"result\": \"test\"\x7d", 200,
        [("content-type", "application/json")]⟩) := by
  refine ⟨?_, rfl, rfl⟩
  intro router router' m p body resp hok
  have h := Router.handle_router_frame router m p body router' resp hok
  exact ⟨h, by rw [h], by rw [h], by rw [h]⟩

/-- C10 witness: the frame property applied to the concrete "/text"
dispatch. -/
theorem spec_C10_witness :
    app.router = app.router ∧ app.router.handlers = app.router.handlers ∧
    app.router.serializer = app.router.serializer ∧
    app.router.injector.parsers = app.router.injector.parsers :=
  spec_C10.1 app.router app.router "GET" "/text" ""
    ⟨some "\x7b\x27result\x27: <Request object>\x7d", 200,
      [("content-type", "text")]⟩ (by rfl)
